import Mathlib

/-!
Shallow embedding of `rtsp_recorder.py` and `config.py` from the
`rtsp-recorder` repository, together with proofs about the supervision
loop, command construction, configuration validation, cleanup and the
signal handler.
-/

namespace RTSP

/-- Configuration snapshot, mirroring the module-level variables of
`config.py` (`FFMPEG_BINARY`, `RTSP_URL`, `OUTPUT_DIR`, `SEGMENT_DURATION`,
`OUTPUT_FORMAT`, `HW_ACCELERATION`, `RTSP_TRANSPORT`, `DISABLE_AUDIO`).
`HW_ACCELERATION` is `Option String` because `config.py` normalises the
empty string to `None`. -/
structure Config where
  FFMPEG_BINARY : String
  RTSP_URL : String
  OUTPUT_DIR : String
  SEGMENT_DURATION : Int
  OUTPUT_FORMAT : String
  HW_ACCELERATION : Option String
  RTSP_TRANSPORT : String
  DISABLE_AUDIO : Bool

/-- Platform facts probed by the `auto` hardware-acceleration branch of
`build_ffmpeg_command` (lines 99-105): `sys.platform == 'darwin'`,
`os.path.exists('/dev/nvidia0')`, `os.path.exists('/dev/dri/renderD128')`. -/
structure Platform where
  isDarwin : Bool
  hasNvidia : Bool
  hasRenderD128 : Bool

/-- Fixed leading arguments of the command (lines 77-86). -/
def baseFlags (cfg : Config) : List String :=
  [cfg.FFMPEG_BINARY, "-y", "-analyzeduration", "1M", "-probesize", "1M",
   "-fflags", "+nobuffer", "-flags", "low_delay"]

/-- Transport arguments (lines 88-90): inserted only when
`config.RTSP_TRANSPORT` is truthy, i.e. a non-empty string. -/
def transportFlags (cfg : Config) : List String :=
  if cfg.RTSP_TRANSPORT = "" then [] else ["-rtsp_transport", cfg.RTSP_TRANSPORT]

/-- Input arguments (lines 92-95). -/
def inputFlags (cfg : Config) : List String :=
  ["-hide_banner", "-i", cfg.RTSP_URL]

/-- Hardware-acceleration arguments (lines 97-107). `some ""` is treated as
falsy, matching Python truthiness of `config.HW_ACCELERATION`. -/
def hwFlags (cfg : Config) (plat : Platform) : List String :=
  match cfg.HW_ACCELERATION with
  | none => []
  | some hw =>
    if hw = "" then []
    else if hw = "auto" then
      if plat.isDarwin then ["-hwaccel", "videotoolbox"]
      else if plat.hasNvidia then ["-hwaccel", "cuda"]
      else if plat.hasRenderD128 then ["-hwaccel", "vaapi"]
      else []
    else ["-hwaccel", hw]

/-- Codec arguments (lines 109-117): always copy video; strip audio when
`DISABLE_AUDIO` is set, otherwise copy audio. -/
def codecFlags (cfg : Config) : List String :=
  ["-c:v", "copy"] ++ (if cfg.DISABLE_AUDIO then ["-an"] else ["-c:a", "copy"])

/-- Segmentation arguments and the output pattern (lines 118-125). -/
def segmentFlags (cfg : Config) (output_file : String) : List String :=
  ["-f", "segment", "-segment_time", toString cfg.SEGMENT_DURATION,
   "-strftime", "1", "-reset_timestamps", "1",
   "-segment_format", cfg.OUTPUT_FORMAT, output_file]

/-- `RTSPRecorder.build_ffmpeg_command` (lines 75-127): the argument list is
built by successive `extend` calls in source order. -/
def build_ffmpeg_command (cfg : Config) (plat : Platform) (output_file : String) :
    List String :=
  baseFlags cfg ++ transportFlags cfg ++ inputFlags cfg ++ hwFlags cfg plat ++
    codecFlags cfg ++ segmentFlags cfg output_file

/-- Filesystem facts consulted by `validate_config` (`os.path.exists`). -/
structure SysEnv where
  pathExists : String → Bool

/-- Python `s.startswith(p)`, rendered on the character lists of the
strings. -/
def startswith (s p : String) : Bool :=
  List.isPrefixOf p.toList s.toList

/-- `RTSPRecorder.validate_config` (lines 306-315): three checks in order,
each raising `ValueError` with the given message. -/
def validate_config (env : SysEnv) (cfg : Config) : Except String Unit :=
  if env.pathExists cfg.FFMPEG_BINARY = false then
    .error "FFmpeg binary not found"
  else if startswith cfg.RTSP_URL "rtsp://" = false then
    .error "Invalid RTSP URL format"
  else if cfg.SEGMENT_DURATION ≤ 0 then
    .error "Segment duration must be positive"
  else
    .ok ()

/-- Result of `main` (lines 317-325). `configError 1` is the
`sys.exit(1)` taken when `validate_config` raises, before
`start_recording` is ever entered; `recorderRan` abstracts entering the
supervision loop (which loops indefinitely). -/
inductive MainResult where
  | configError (code : Nat)
  | recorderRan
deriving DecidableEq

/-- `main` (lines 317-325), up to entry into the supervision loop:
validation runs first, and a validation error exits with status 1 before
any recording session begins. -/
def main_model (env : SysEnv) (cfg : Config) : MainResult :=
  match validate_config env cfg with
  | .error _ => .configError 1
  | .ok _ => .recorderRan

/-- Segment naming convention used at lines 204, 243 and 273:
`f.startswith('recording_') and f.endswith(f'.{config.OUTPUT_FORMAT}')`,
rendered on the character lists of the strings. -/
def segMatch (fmt f : String) : Bool :=
  List.isPrefixOf "recording_".toList f.toList &&
    List.isSuffixOf ("." ++ fmt).toList f.toList

/-- Cleanup block of a failed session (lines 240-249 and 270-279): iterate
over `after - before`, delete each name matching the segment convention;
`removeOk f = false` models `os.remove` raising for `f`, which is logged
and skipped, so the returned list is the `deleted` accumulator. -/
def cleanupNewFiles (fmt : String) (before after : List String)
    (removeOk : String → Bool) : List String :=
  ((after.filter (fun f => !(before.contains f))).filter (segMatch fmt)).filter
    removeOk

/-- Result of one `os.listdir` call: `notFound` is `FileNotFoundError`
(handled where the source catches it), `fsError` is any other `OSError`. -/
inductive FsResult where
  | ok (files : List String)
  | notFound
  | fsError
deriving DecidableEq

/-- Semantics of the `try: os.listdir ... except FileNotFoundError: set()`
pattern (lines 138-141, 198-201, 236-239, 266-269): `notFound` yields the
empty listing, while any other error (`none`) propagates as an exception. -/
def lsFiles : FsResult → Option (List String)
  | .ok l => some l
  | .notFound => some []
  | .fsError => none

/-- External behaviour of one iteration of the `while self.running` loop of
`start_recording`: what the filesystem and the child process do at each
observation point of the source. `cleanShutdown` is the value of
`self.clean_shutdown` read in the post-exit classification (lines 263,
284); the flag is monotone (only ever set to `True` by `signal_handler`),
so a single value per iteration is faithful. -/
structure SessionEnv where
  /-- `get_dated_output_directory` (line 134) raises, e.g. `mkdir` fails. -/
  datedDirRaises : Bool
  /-- listing for the `before_files` snapshot (line 139). -/
  beforeLs : FsResult
  /-- `subprocess.Popen` (line 182) raises. -/
  launchRaises : Bool
  /-- listing observed at startup-poll tick `i` (line 199). -/
  pollLs : Nat → FsResult
  /-- `self.process.poll() is None` at tick `i` (line 208). -/
  pollAlive : Nat → Bool
  /-- `self.process.poll() is None` at the post-timeout check (line 214). -/
  aliveAfterTimeout : Bool
  /-- `self.process.wait(timeout=2)` after `terminate()` returns in time
  (line 226); otherwise `kill()` is invoked (line 229). -/
  graceExits : Bool
  /-- `self.process.wait()` (line 259) raises. -/
  waitRaises : Bool
  /-- `self.process.returncode` once the process has exited. -/
  exitCode : Int
  /-- listing for the startup-failure cleanup (line 237). -/
  startupAfterLs : FsResult
  /-- listing for the steady-state failure cleanup (line 267). -/
  steadyAfterLs : FsResult
  /-- `os.remove` on this name succeeds (lines 246, 276). -/
  removeOk : String → Bool
  /-- `self.clean_shutdown` as read at lines 263 and 284. -/
  cleanShutdown : Bool

/-- How the startup poll loop (lines 197-210) ends. -/
inductive PollExit where
  | raised
  | started
  | died
  | timedOut
deriving DecidableEq

/-- `STARTUP_TIMEOUT = 20` (line 195). -/
def STARTUP_TIMEOUT : Nat := 20

/-- The `time.sleep(1)` between startup polls (line 210). -/
def POLL_INTERVAL : Nat := 1

/-- The `time.sleep(5)` backoff literal (lines 254, 287, 291). -/
def RESTART_BACKOFF : Nat := 5

/-- Startup poll loop (lines 197-210): for each tick list the directory,
succeed if a new name matches the segment convention, break if the process
has exited, otherwise sleep `POLL_INTERVAL` and continue; a listing error
other than `FileNotFoundError` propagates to the outer handler. -/
def pollLoop (fmt : String) (env : SessionEnv) (before : List String) :
    Nat → Nat → PollExit
  | _, 0 => .timedOut
  | i, fuel + 1 =>
    match lsFiles (env.pollLs i) with
    | none => .raised
    | some after =>
      if (after.filter (fun f => !(before.contains f))).any (segMatch fmt) then
        .started
      else if env.pollAlive i = false then .died
      else pollLoop fmt env before (i + 1) fuel

/-- Classification of how one loop iteration ends. -/
inductive IterOutcome where
  /-- an exception escaped `start_recording` (raised before the `try` at
  line 180). -/
  | escaped
  /-- the `except Exception` handler at line 289 ran (log + 5s sleep). -/
  | caughtError
  /-- the `if not started_ok` path (lines 212-255): cleanup, backoff,
  `continue`. -/
  | startupFailure
  /-- `rc != 0 and not self.clean_shutdown` (lines 263-283): cleanup, no
  sleep. -/
  | steadyFailure
  /-- `elif self.clean_shutdown` (lines 284-287): keep segments, sleep 5. -/
  | cleanShutdownKeep
  /-- `rc == 0` without clean shutdown: fall through, next iteration at
  once. -/
  | steadySuccess
deriving DecidableEq

/-- Observable effects of one loop iteration. `backoff` is the total
`time.sleep` executed after the exit/timeout decision (the 5-unit sleeps at
lines 254, 287, 291); the poll sleeps and the 0.1s flush pause at line 218
are not counted. -/
structure IterResult where
  outcome : IterOutcome
  deleted : List String
  terminateRequested : Bool
  killed : Bool
  backoff : Nat
deriving DecidableEq

/-- Result of the pre-launch region raising (lines 134-141 are outside the
`try`, so the exception leaves `start_recording`). -/
def escapedResult : IterResult :=
  { outcome := .escaped, deleted := [], terminateRequested := false,
    killed := false, backoff := 0 }

/-- Result of the `except Exception` handler (lines 289-291). -/
def caughtResult : IterResult :=
  { outcome := .caughtError, deleted := [], terminateRequested := false,
    killed := false, backoff := RESTART_BACKOFF }

/-- Steady-state classification after `self.process.wait()` (lines
259-287): failure cleanup when `rc != 0 and not clean_shutdown`; keep
segments (and sleep 5, line 287) when `clean_shutdown`; otherwise nothing. -/
def steadyPath (fmt : String) (env : SessionEnv) (before : List String) :
    IterResult :=
  if env.waitRaises then caughtResult
  else if env.exitCode ≠ 0 ∧ env.cleanShutdown = false then
    match lsFiles env.steadyAfterLs with
    | none => caughtResult
    | some after =>
      { outcome := .steadyFailure,
        deleted := cleanupNewFiles fmt before after env.removeOk,
        terminateRequested := false, killed := false, backoff := 0 }
  else if env.cleanShutdown then
    { outcome := .cleanShutdownKeep, deleted := [],
      terminateRequested := false, killed := false,
      backoff := RESTART_BACKOFF }
  else
    { outcome := .steadySuccess, deleted := [], terminateRequested := false,
      killed := false, backoff := 0 }

/-- The `if not started_ok` path (lines 212-255). `alive` is whether
`poll()` returned `None` at line 221: then `terminate()` is requested and
`kill()` follows if the 2-second grace wait expires; in either case the
cleanup runs unconditionally and the 5-unit backoff of line 254 follows. -/
def startupFailPath (fmt : String) (env : SessionEnv) (before : List String)
    (alive : Bool) : IterResult :=
  let kill := alive && !env.graceExits
  match lsFiles env.startupAfterLs with
  | none =>
    { outcome := .caughtError, deleted := [], terminateRequested := alive,
      killed := kill, backoff := RESTART_BACKOFF }
  | some after =>
    { outcome := .startupFailure,
      deleted := cleanupNewFiles fmt before after env.removeOk,
      terminateRequested := alive, killed := kill,
      backoff := RESTART_BACKOFF }

/-- One iteration of the `while self.running` loop of
`RTSPRecorder.start_recording` (lines 131-291), as a function of the
external behaviour `env`. `fmt` is `config.OUTPUT_FORMAT`. -/
def start_recording_iter (fmt : String) (env : SessionEnv) : IterResult :=
  if env.datedDirRaises then escapedResult
  else
    match lsFiles env.beforeLs with
    | none => escapedResult
    | some before =>
      if env.launchRaises then caughtResult
      else
        match pollLoop fmt env before 0 STARTUP_TIMEOUT with
        | .raised => caughtResult
        | .started => steadyPath fmt env before
        | .died => startupFailPath fmt env before false
        | .timedOut => startupFailPath fmt env before env.aliveAfterTimeout

/-- Fields of `RTSPRecorder` written by `__init__`, `signal_handler` and
the supervision loop: `self.process is not None`, `self.running`,
`self.clean_shutdown`. -/
structure RecorderState where
  processLaunched : Bool
  running : Bool
  clean_shutdown : Bool
deriving DecidableEq

/-- `RTSPRecorder.__init__` (lines 19-21). -/
def initState : RecorderState :=
  { processLaunched := false, running := true, clean_shutdown := false }

/-- `RTSPRecorder.signal_handler` (lines 293-304): clear `running`; only
when a process handle exists, set `clean_shutdown` and terminate it. The
returned Bool records whether a termination request was issued. -/
def signal_handler (s : RecorderState) : RecorderState × Bool :=
  let s1 : RecorderState := { s with running := false }
  if s1.processLaunched then
    ({ s1 with clean_shutdown := true }, true)
  else (s1, false)

/-- Writes to the shared recorder fields: an asynchronous signal, or the
supervision loop assigning `self.process` at line 182. No other statement
of the program writes `clean_shutdown` or `running`. -/
inductive RecEvent where
  | signal
  | launchProcess
deriving DecidableEq

/-- Effect of one shared-field write on the recorder state. -/
def stepEvent (s : RecorderState) (e : RecEvent) : RecorderState :=
  match e with
  | .signal => (signal_handler s).1
  | .launchProcess => { s with processLaunched := true }

/-- Formalisation of the claim phrase "the transport flag and its value
immediately before the input-source flag (no other arguments between
them)": some position holds `-rtsp_transport`, the next the value, and the
next the `-i` flag. -/
def transportImmediatelyBeforeInput (l : List String) (t : String) : Bool :=
  (List.range l.length).any fun i =>
    l.get? i == some "-rtsp_transport" && l.get? (i + 1) == some t &&
      l.get? (i + 2) == some "-i"

/-- Configuration with a non-empty transport override. -/
def cfgTcp : Config :=
  { FFMPEG_BINARY := "/usr/local/bin/ffmpeg",
    RTSP_URL := "rtsp://cam.local/stream",
    OUTPUT_DIR := "recordings",
    SEGMENT_DURATION := 900,
    OUTPUT_FORMAT := "mkv",
    HW_ACCELERATION := none,
    RTSP_TRANSPORT := "tcp",
    DISABLE_AUDIO := false }

/-- Configuration with the transport override left empty. -/
def cfgNoTransport : Config :=
  { FFMPEG_BINARY := "/usr/local/bin/ffmpeg",
    RTSP_URL := "rtsp://cam.local/stream",
    OUTPUT_DIR := "recordings",
    SEGMENT_DURATION := 900,
    OUTPUT_FORMAT := "mkv",
    HW_ACCELERATION := none,
    RTSP_TRANSPORT := "",
    DISABLE_AUDIO := false }

/-- A plain Linux host without acceleration devices. -/
def platPlain : Platform :=
  { isDarwin := false, hasNvidia := false, hasRenderD128 := false }

/-- Session in which the first segment appears at the first poll and the
process later exits with status 1 while no shutdown was requested. -/
def envSteadyFail : SessionEnv :=
  { datedDirRaises := false,
    beforeLs := .ok [],
    launchRaises := false,
    pollLs := fun _ => .ok ["recording_120000.mkv"],
    pollAlive := fun _ => true,
    aliveAfterTimeout := false,
    graceExits := true,
    waitRaises := false,
    exitCode := 1,
    startupAfterLs := .ok [],
    steadyAfterLs := .ok ["recording_120000.mkv", "recording_120500.mkv"],
    removeOk := fun _ => true,
    cleanShutdown := false }

/-- Session terminated by a signal during the startup phase: the process is
already gone at the first poll, a clean shutdown was requested, and one new
segment plus one unrelated file sit in the dated directory. -/
def envStartupClean : SessionEnv :=
  { datedDirRaises := false,
    beforeLs := .ok ["notes.txt"],
    launchRaises := false,
    pollLs := fun _ => .ok ["notes.txt"],
    pollAlive := fun _ => false,
    aliveAfterTimeout := false,
    graceExits := true,
    waitRaises := false,
    exitCode := -15,
    startupAfterLs := .ok ["notes.txt", "recording_235959.mkv"],
    steadyAfterLs := .ok [],
    removeOk := fun _ => true,
    cleanShutdown := true }

/-- Session in which the first segment appears at once and the process is
terminated by a clean shutdown request, exiting with a non-zero status. -/
def envSteadyCleanStop : SessionEnv :=
  { datedDirRaises := false,
    beforeLs := .ok [],
    launchRaises := false,
    pollLs := fun _ => .ok ["recording_120000.mkv"],
    pollAlive := fun _ => true,
    aliveAfterTimeout := false,
    graceExits := true,
    waitRaises := false,
    exitCode := -15,
    startupAfterLs := .ok [],
    steadyAfterLs := .ok ["recording_120000.mkv"],
    removeOk := fun _ => true,
    cleanShutdown := true }

/-- Session in which computing the dated output directory raises. -/
def envPreLaunchRaise : SessionEnv :=
  { datedDirRaises := true,
    beforeLs := .ok [],
    launchRaises := false,
    pollLs := fun _ => .ok [],
    pollAlive := fun _ => true,
    aliveAfterTimeout := false,
    graceExits := true,
    waitRaises := false,
    exitCode := 0,
    startupAfterLs := .ok [],
    steadyAfterLs := .ok [],
    removeOk := fun _ => true,
    cleanShutdown := false }

/-- Session in which the process stays alive but never produces a segment:
every poll sees only the pre-existing file. -/
def envTimeout : SessionEnv :=
  { datedDirRaises := false,
    beforeLs := .ok ["old.mkv"],
    launchRaises := false,
    pollLs := fun _ => .ok ["old.mkv"],
    pollAlive := fun _ => true,
    aliveAfterTimeout := true,
    graceExits := false,
    waitRaises := false,
    exitCode := 0,
    startupAfterLs := .ok ["old.mkv", "recording_090000.mkv"],
    steadyAfterLs := .ok [],
    removeOk := fun _ => true,
    cleanShutdown := false }

/-- Healthy session: a segment appears at the first poll and the process
later exits with status 0 with no shutdown requested. -/
def envHealthy : SessionEnv :=
  { datedDirRaises := false,
    beforeLs := .ok [],
    launchRaises := false,
    pollLs := fun _ => .ok ["recording_000001.mkv"],
    pollAlive := fun _ => true,
    aliveAfterTimeout := false,
    graceExits := true,
    waitRaises := false,
    exitCode := 0,
    startupAfterLs := .ok [],
    steadyAfterLs := .ok ["recording_000001.mkv"],
    removeOk := fun _ => true,
    cleanShutdown := false }

/-- System environment in which every path exists. -/
def sysOk : SysEnv := { pathExists := fun _ => true }

/-- Configuration with a zero segment duration and otherwise valid fields. -/
def cfgBadDuration : Config :=
  { FFMPEG_BINARY := "/usr/local/bin/ffmpeg",
    RTSP_URL := "rtsp://cam.local/stream",
    OUTPUT_DIR := "recordings",
    SEGMENT_DURATION := 0,
    OUTPUT_FORMAT := "mkv",
    HW_ACCELERATION := none,
    RTSP_TRANSPORT := "",
    DISABLE_AUDIO := false }

/-! ## Helper lemmas -/

/-- When the pre-launch region succeeds and the startup poll observes a new
segment, the iteration is the steady-state path of lines 257-287. -/
theorem iter_unfold_started (fmt : String) (env : SessionEnv)
    (before : List String)
    (hd : env.datedDirRaises = false)
    (hb : lsFiles env.beforeLs = some before)
    (hl : env.launchRaises = false)
    (hs : pollLoop fmt env before 0 STARTUP_TIMEOUT = .started) :
    start_recording_iter fmt env = steadyPath fmt env before := by
  unfold start_recording_iter
  rw [hd]
  simp only [Bool.false_eq_true, if_false]
  rw [hb, hl]
  simp only [Bool.false_eq_true, if_false]
  rw [hs]

/-- The steady-state path never lets an exception escape the loop. -/
theorem steadyPath_outcome_ne (fmt : String) (env : SessionEnv)
    (before : List String) :
    (steadyPath fmt env before).outcome ≠ .escaped := by
  unfold steadyPath
  split
  · simp [caughtResult]
  · split
    · split <;> simp [caughtResult]
    · split <;> simp

/-- The startup-failure path never lets an exception escape the loop. -/
theorem startupFailPath_outcome_ne (fmt : String) (env : SessionEnv)
    (before : List String) (alive : Bool) :
    (startupFailPath fmt env before alive).outcome ≠ .escaped := by
  unfold startupFailPath
  split <;> simp

/-! ## Claim theorems -/

/-- C1: the claim states that a non-zero exit while shutdown intent is
still running (after the first segment was produced) is followed by the
fixed 5-unit backoff before the next session. The code contradicts this:
in `envSteadyFail` the first segment appears, the process exits with
status 1, no clean shutdown was requested, the failure branch of lines
263-283 runs — and the iteration performs no backoff at all, because the
`time.sleep(5)` of line 287 is indented into the `elif self.clean_shutdown`
branch. This theorem evaluates the embedded code at that failing input. -/
theorem c1_steady_failure_backoff_missing :
    envSteadyFail.exitCode = 1 ∧ envSteadyFail.cleanShutdown = false ∧
      (start_recording_iter "mkv" envSteadyFail).outcome = .steadyFailure ∧
      (start_recording_iter "mkv" envSteadyFail).backoff = 0 :=
  ⟨rfl, rfl, by decide, by decide⟩

/-- C2 counterexample: the claim states that once shutdown intent is
stopping-clean, the subsequent draining deletes no files regardless of
which state the session was in. In `envStartupClean` the clean shutdown
arrives while the session is still awaiting its first segment, the process
is already gone at the first poll, and the unconditional startup-failure
cleanup of lines 236-251 deletes the newly created segment anyway. -/
theorem c2_startup_clean_shutdown_deletes :
    envStartupClean.cleanShutdown = true ∧
      (start_recording_iter "mkv" envStartupClean).deleted =
        ["recording_235959.mkv"] ∧
      (start_recording_iter "mkv" envStartupClean).deleted ≠ [] :=
  ⟨rfl, by decide, by decide⟩

/-- C2 (amended): when shutdown intent is stopping-clean and the session
had reached steady state (the startup poll observed a new segment), the
draining step deletes no files, regardless of the observed exit code. -/
theorem c2_clean_shutdown_retains_steady (fmt : String) (env : SessionEnv)
    (before : List String)
    (hd : env.datedDirRaises = false)
    (hb : lsFiles env.beforeLs = some before)
    (hl : env.launchRaises = false)
    (hs : pollLoop fmt env before 0 STARTUP_TIMEOUT = .started)
    (hc : env.cleanShutdown = true) :
    (start_recording_iter fmt env).deleted = [] := by
  rw [iter_unfold_started fmt env before hd hb hl hs]
  unfold steadyPath
  split
  · rfl
  · simp [hc, caughtResult]

/-- C2 witness: a concrete clean-shutdown session with a non-zero exit
code in steady state retains all files. -/
theorem c2_clean_shutdown_retains_steady_witness :
    (start_recording_iter "mkv" envSteadyCleanStop).deleted = [] :=
  c2_clean_shutdown_retains_steady "mkv" envSteadyCleanStop [] rfl rfl rfl
    (by decide) rfl

/-- C3 counterexample: the claim states that with a non-empty transport
override the transport flag and value sit immediately before the
input-source flag with no other arguments between them. For `cfgTcp` this
is false: `-hide_banner` (line 93) stands between the transport value and
`-i`. -/
theorem c3_transport_not_immediately_before_input :
    cfgTcp.RTSP_TRANSPORT ≠ "" ∧
      transportImmediatelyBeforeInput
        (build_ffmpeg_command cfgTcp platPlain
          "recordings/2026/10/12/recording_%H%M%S.mkv")
        cfgTcp.RTSP_TRANSPORT = false :=
  ⟨by decide, by decide⟩

/-- C3 (amended): with a non-empty transport override, the transport flag
and its value precede the input-source flag, separated from `-i` only by
the banner-suppression flag `-hide_banner`; with an empty override no
transport flag appears at all (for configurations none of whose field
values is itself the literal transport flag). -/
theorem c3_transport_before_input (cfg : Config) (plat : Platform)
    (out : String) :
    (cfg.RTSP_TRANSPORT ≠ "" →
      ∃ rest, build_ffmpeg_command cfg plat out =
        [cfg.FFMPEG_BINARY, "-y", "-analyzeduration", "1M", "-probesize",
         "1M", "-fflags", "+nobuffer", "-flags", "low_delay",
         "-rtsp_transport", cfg.RTSP_TRANSPORT, "-hide_banner", "-i",
         cfg.RTSP_URL] ++ rest) ∧
    (cfg.RTSP_TRANSPORT = "" →
      "-rtsp_transport" ∉ [cfg.FFMPEG_BINARY, cfg.RTSP_URL,
        cfg.OUTPUT_FORMAT, toString cfg.SEGMENT_DURATION, out] →
      (∀ hw, cfg.HW_ACCELERATION = some hw → hw ≠ "-rtsp_transport") →
      "-rtsp_transport" ∉ build_ffmpeg_command cfg plat out) := by
  constructor
  · intro h
    refine ⟨hwFlags cfg plat ++ codecFlags cfg ++ segmentFlags cfg out, ?_⟩
    simp [build_ffmpeg_command, baseFlags, transportFlags, inputFlags,
      if_neg h]
  · intro h h2 h3 hmem
    simp only [List.mem_cons, List.not_mem_nil, or_false, not_or] at h2
    have hhw : "-rtsp_transport" ∉ hwFlags cfg plat := by
      unfold hwFlags
      cases hacc : cfg.HW_ACCELERATION with
      | none => simp
      | some hw =>
        dsimp only
        have hne := h3 hw hacc
        by_cases h0 : hw = ""
        · simp [h0]
        · by_cases h1 : hw = "auto"
          · rw [if_neg h0, if_pos h1]
            split_ifs <;> simp
          · rw [if_neg h0, if_neg h1]
            simp [Ne.symm hne]
    simp only [build_ffmpeg_command, List.mem_append] at hmem
    rcases hmem with ((((hA | hB) | hC) | hD) | hE) | hF
    · simp only [baseFlags, List.mem_cons, List.not_mem_nil, or_false] at hA
      simp_all
    · simp [transportFlags, h] at hB
    · simp only [inputFlags, List.mem_cons, List.not_mem_nil, or_false] at hC
      simp_all
    · exact hhw hD
    · simp only [codecFlags, List.mem_append, List.mem_cons,
        List.not_mem_nil, or_false] at hE
      rcases hE with hE | hE
      · simp_all
      · by_cases hda : cfg.DISABLE_AUDIO = true <;> simp [hda] at hE
    · simp only [segmentFlags, List.mem_cons, List.not_mem_nil, or_false] at hF
      simp_all

/-- C3 witness: the amended claim at a configuration with transport `tcp`
and at one with the override left empty. -/
theorem c3_transport_before_input_witness :
    (∃ rest, build_ffmpeg_command cfgTcp platPlain "out.mkv" =
      ["/usr/local/bin/ffmpeg", "-y", "-analyzeduration", "1M", "-probesize",
       "1M", "-fflags", "+nobuffer", "-flags", "low_delay",
       "-rtsp_transport", "tcp", "-hide_banner", "-i",
       "rtsp://cam.local/stream"] ++ rest) ∧
      "-rtsp_transport" ∉ build_ffmpeg_command cfgNoTransport platPlain
        "out.mkv" := by
  constructor
  · exact (c3_transport_before_input cfgTcp platPlain "out.mkv").1 (by decide)
  · exact (c3_transport_before_input cfgNoTransport platPlain "out.mkv").2
      rfl (by decide) (by intro hw hh; simp [cfgNoTransport] at hh)

/-- C4 counterexample: the claim states that an exception raised at any
point inside a loop iteration — including while computing the dated
directory — is caught and never propagates. In `envPreLaunchRaise` the
dated-directory computation (line 134, outside the `try` of line 180)
raises, and the exception escapes the supervision loop. -/
theorem c4_prelaunch_exception_escapes :
    (start_recording_iter "mkv" envPreLaunchRaise).outcome = .escaped := by
  decide

/-- C4 (amended): once the dated directory has been computed and the
before-snapshot listing has not failed with an error other than a missing
directory, every exception of the iteration — launching, polling, waiting,
listing, deleting — is caught inside the loop and never escapes. -/
theorem c4_contained_after_snapshot (fmt : String) (env : SessionEnv)
    (hd : env.datedDirRaises = false) (hb : env.beforeLs ≠ .fsError) :
    (start_recording_iter fmt env).outcome ≠ .escaped := by
  unfold start_recording_iter
  rw [hd]
  simp only [Bool.false_eq_true, if_false]
  obtain ⟨l, hl⟩ : ∃ l, lsFiles env.beforeLs = some l := by
    cases h : env.beforeLs
    · exact ⟨_, rfl⟩
    · exact ⟨_, rfl⟩
    · exact absurd h hb
  rw [hl]
  dsimp only
  split
  · simp [caughtResult]
  · split
    · simp [caughtResult]
    · apply steadyPath_outcome_ne
    · apply startupFailPath_outcome_ne
    · apply startupFailPath_outcome_ne

/-- C4 witness: a healthy session never ends in an escaped exception. -/
theorem c4_contained_after_snapshot_witness :
    (start_recording_iter "mkv" envHealthy).outcome ≠ .escaped :=
  c4_contained_after_snapshot "mkv" envHealthy rfl (by decide)

/-- C5: the cleanup deletes exactly the names present after but not before
that match the `recording_` prefix and `.<format>` suffix convention and
whose deletion succeeds; every pre-existing or non-matching file is
untouched, and one failed deletion (`removeOk f = false`) never prevents
the deletion of the remaining files, since membership is decided per
file. -/
theorem c5_cleanup_deletes_exactly_new_matching (fmt : String)
    (before after : List String) (removeOk : String → Bool) (f : String) :
    f ∈ cleanupNewFiles fmt before after removeOk ↔
      f ∈ after ∧ f ∉ before ∧ segMatch fmt f = true ∧ removeOk f = true := by
  simp only [cleanupNewFiles, List.mem_filter, Bool.not_eq_true',
    List.elem_eq_mem, decide_eq_false_iff_not]
  tauto

/-- C5 witness: with one pre-existing file, two new segments — one of
whose deletions fails — and one new non-matching file, exactly the new
matching deletable segment is deleted. -/
theorem c5_cleanup_witness :
    "recording_1.mkv" ∈ cleanupNewFiles "mkv" ["keep.mkv"]
      ["keep.mkv", "recording_1.mkv", "recording_2.mkv", "notes.txt"]
      (fun f => !(f == "recording_2.mkv")) :=
  (c5_cleanup_deletes_exactly_new_matching "mkv" ["keep.mkv"]
      ["keep.mkv", "recording_1.mkv", "recording_2.mkv", "notes.txt"]
      (fun f => !(f == "recording_2.mkv")) "recording_1.mkv").mpr
    ⟨by decide, by decide, by decide, by decide⟩

/-- C6: when no new segment name appears within the 20 polls at 1-unit
intervals and the process is still alive, the supervisor requests
termination (force-killing exactly when the 2-unit grace wait expires),
classifies the session as a startup failure, runs the diff-based cleanup
and applies the 5-unit backoff. -/
theorem c6_startup_timeout_terminates (fmt : String) (env : SessionEnv)
    (before after : List String)
    (hd : env.datedDirRaises = false)
    (hb : lsFiles env.beforeLs = some before)
    (hl : env.launchRaises = false)
    (hp : pollLoop fmt env before 0 STARTUP_TIMEOUT = .timedOut)
    (ha : env.aliveAfterTimeout = true)
    (hafter : lsFiles env.startupAfterLs = some after) :
    STARTUP_TIMEOUT = 20 ∧ POLL_INTERVAL = 1 ∧
      (start_recording_iter fmt env).terminateRequested = true ∧
      (start_recording_iter fmt env).killed = !env.graceExits ∧
      (start_recording_iter fmt env).outcome = .startupFailure ∧
      (start_recording_iter fmt env).backoff = RESTART_BACKOFF ∧
      (start_recording_iter fmt env).deleted =
        cleanupNewFiles fmt before after env.removeOk := by
  have hiter : start_recording_iter fmt env =
      startupFailPath fmt env before env.aliveAfterTimeout := by
    unfold start_recording_iter
    rw [hd]
    simp only [Bool.false_eq_true, if_false]
    rw [hb, hl]
    simp only [Bool.false_eq_true, if_false]
    rw [hp]
  rw [hiter, ha]
  unfold startupFailPath
  rw [hafter]
  exact ⟨rfl, rfl, rfl, by simp, rfl, rfl, rfl⟩

/-- C6 witness: a session whose 20 polls all see only the pre-existing
file while the process stays alive is terminated, force-killed (its grace
wait expires) and cleaned up with the 5-unit backoff. -/
theorem c6_startup_timeout_witness :
    STARTUP_TIMEOUT = 20 ∧ POLL_INTERVAL = 1 ∧
      (start_recording_iter "mkv" envTimeout).terminateRequested = true ∧
      (start_recording_iter "mkv" envTimeout).killed = !envTimeout.graceExits ∧
      (start_recording_iter "mkv" envTimeout).outcome = .startupFailure ∧
      (start_recording_iter "mkv" envTimeout).backoff = RESTART_BACKOFF ∧
      (start_recording_iter "mkv" envTimeout).deleted =
        cleanupNewFiles "mkv" ["old.mkv"] ["old.mkv", "recording_090000.mkv"]
          envTimeout.removeOk :=
  c6_startup_timeout_terminates "mkv" envTimeout ["old.mkv"]
    ["old.mkv", "recording_090000.mkv"] rfl rfl rfl (by decide) rfl rfl

/-- C7: for every configuration with a non-positive segment duration or a
source URL not starting with `rtsp://`, `validate_config` raises an error,
and `main` exits with status 1 before any recording session begins. -/
theorem c7_validation_rejects_bad_config (env : SysEnv) (cfg : Config)
    (h : cfg.SEGMENT_DURATION ≤ 0 ∨
      startswith cfg.RTSP_URL "rtsp://" = false) :
    (∃ msg, validate_config env cfg = .error msg) ∧
      main_model env cfg = .configError 1 := by
  have hv : ∃ msg, validate_config env cfg = .error msg := by
    unfold validate_config
    split
    · exact ⟨_, rfl⟩
    · split
      · exact ⟨_, rfl⟩
      · split
        · exact ⟨_, rfl⟩
        · rcases h with h | h
          · exact absurd h (by assumption)
          · exact absurd h (by assumption)
  obtain ⟨msg, hmsg⟩ := hv
  exact ⟨⟨msg, hmsg⟩, by simp [main_model, hmsg]⟩

/-- C7 witness: a zero segment duration is rejected before any session. -/
theorem c7_validation_witness :
    (∃ msg, validate_config sysOk cfgBadDuration = .error msg) ∧
      main_model sysOk cfgBadDuration = .configError 1 :=
  c7_validation_rejects_bad_config sysOk cfgBadDuration (Or.inl (by decide))

/-- C8: when the process exits with status zero while shutdown intent is
still running (after the first segment was observed), the iteration
performs no cleanup and no backoff: the loop begins the next session
immediately. -/
theorem c8_zero_exit_restarts_immediately (fmt : String) (env : SessionEnv)
    (before : List String)
    (hd : env.datedDirRaises = false)
    (hb : lsFiles env.beforeLs = some before)
    (hl : env.launchRaises = false)
    (hs : pollLoop fmt env before 0 STARTUP_TIMEOUT = .started)
    (hw : env.waitRaises = false)
    (hrc : env.exitCode = 0)
    (hc : env.cleanShutdown = false) :
    (start_recording_iter fmt env).outcome = .steadySuccess ∧
      (start_recording_iter fmt env).deleted = [] ∧
      (start_recording_iter fmt env).backoff = 0 := by
  rw [iter_unfold_started fmt env before hd hb hl hs]
  unfold steadyPath
  rw [if_neg (by simp [hw]), if_neg (by simp [hrc]), if_neg (by simp [hc])]
  exact ⟨rfl, rfl, rfl⟩

/-- C8 witness: a healthy zero-exit session restarts with no cleanup and
no backoff. -/
theorem c8_zero_exit_witness :
    (start_recording_iter "mkv" envHealthy).outcome = .steadySuccess ∧
      (start_recording_iter "mkv" envHealthy).deleted = [] ∧
      (start_recording_iter "mkv" envHealthy).backoff = 0 :=
  c8_zero_exit_restarts_immediately "mkv" envHealthy [] rfl rfl rfl
    (by decide) rfl rfl rfl

/-- C9: once `clean_shutdown` is true, no sequence of writes to the shared
recorder fields — signals or process launches, the only statements of the
program that write them — ever resets it. -/
theorem c9_clean_shutdown_monotone (s : RecorderState) (es : List RecEvent)
    (h : s.clean_shutdown = true) :
    (es.foldl stepEvent s).clean_shutdown = true := by
  induction es generalizing s with
  | nil => exact h
  | cons e es ih =>
    refine ih _ ?_
    cases e with
    | signal =>
      simp only [stepEvent, signal_handler]
      split <;> simp [h]
    | launchProcess => simpa [stepEvent] using h

/-- C9 witness: a state with `clean_shutdown` set keeps it through a
launch and two further signals. -/
theorem c9_clean_shutdown_monotone_witness :
    (([RecEvent.launchProcess, RecEvent.signal, RecEvent.signal].foldl
        stepEvent
        { processLaunched := true, running := false,
          clean_shutdown := true }).clean_shutdown = true) :=
  c9_clean_shutdown_monotone
    { processLaunched := true, running := false, clean_shutdown := true }
    [RecEvent.launchProcess, RecEvent.signal, RecEvent.signal] rfl

/-- C10: a signal delivered while `self.process` is still unset clears the
running flag, leaves `clean_shutdown` unchanged, and issues no termination
request. -/
theorem c10_signal_without_process (s : RecorderState)
    (h : s.processLaunched = false) :
    (signal_handler s).1.running = false ∧
      (signal_handler s).1.clean_shutdown = s.clean_shutdown ∧
      (signal_handler s).2 = false := by
  simp [signal_handler, h]

/-- C10 witness: the initial state (no process yet) under a signal. -/
theorem c10_signal_without_process_witness :
    (signal_handler initState).1.running = false ∧
      (signal_handler initState).1.clean_shutdown =
        initState.clean_shutdown ∧
      (signal_handler initState).2 = false :=
  c10_signal_without_process initState rfl

end RTSP
